import Mathlib

/-!
Shallow embedding of the gaming-news bot pipeline
(source file gaming_news_bot.py) and proofs about its
news fetching, fact-checking, formatting, delivery,
command gating and scheduling behavior.
-/

namespace GamingNewsBot

/-- Result of one HTTP POST to the completion endpoint, as the calling
code observes it: either a response with a status code and the extracted
content of choices[0].message.content (none when the body is malformed,
so that extraction raises), or a transport-level exception carrying a
message. -/
inductive HttpOutcome where
  | resp (status : Nat) (content : Option String)
  | exn (msg : String)
deriving Repr, DecidableEq

/-- PerplexityAPI.fetch_gaming_news, lines 53 to 88: on status 200 return
the extracted content; on any other status log the status code and return
None; on a raised exception (transport failure, or extraction failure on
a malformed 200 body, both caught by the same except clause) log the
error and return None. First component is the returned value, second the
error log lines emitted by the call. -/
def fetch_gaming_news : HttpOutcome → Option String × List String
  | .resp status content =>
      if status = 200 then
        match content with
        | some c => (some c, [])
        | none => (none, ["Error fetching news: malformed response body"])
      else
        (none, ["Perplexity API error: " ++ toString status])
  | .exn e => (none, ["Error fetching news: " ++ e])

/-- PerplexityAPI.fact_check_content, lines 90 to 124: on status 200
return the extracted content; on any other status return a fixed
fallback string with no logging; on a raised exception log the error and
return a second, different fixed fallback string. Never returns None. -/
def fact_check_content : HttpOutcome → String × List String
  | .resp status content =>
      if status = 200 then
        match content with
        | some c => (c, [])
        | none => ("✅ Content appears factual (fact-check unavailable)",
                   ["Error fact-checking: malformed response body"])
      else
        ("✅ Content appears factual (verification unavailable)", [])
  | .exn e => ("✅ Content appears factual (fact-check unavailable)",
               ["Error fact-checking: " ++ e])

/-- Truthiness test of the Python expression `not news_content` applied
to an Optional string: None and the empty string are falsy. -/
def pyFalsy : Option String → Bool
  | none => true
  | some s => s.isEmpty

/-- One labeled field of the Discord embed. -/
structure EmbedField where
  name : String
  value : String
  inline : Bool
deriving Repr, DecidableEq

/-- The embed built by GamingNewsBot.create_news_embed: title,
description, color, timestamp, ordered field list, footer. -/
structure Embed where
  title : String
  description : String
  color : Nat
  timestamp : Nat
  fields : List EmbedField
  footerText : String
  footerIcon : String
deriving Repr, DecidableEq

/-- Value of the first body field of an embed. -/
def Embed.field1 (e : Embed) : String :=
  match e.fields with
  | f :: _ => f.value
  | [] => ""

/-- Value of the second body field of an embed. -/
def Embed.field2 (e : Embed) : String :=
  match e.fields with
  | _ :: f :: _ => f.value
  | _ => ""

/-- GamingNewsBot.create_news_embed, lines 132 to 160: builds the embed
with the news text hard-truncated at 1000 characters plus an ellipsis
when it is longer, and the fact-check text truncated the same way at
500. The timestamp argument stands for datetime.now(timezone.utc). -/
def create_news_embed (news_content fact_check_result : String) (now : Nat) : Embed :=
  { title := "🎮 Daily Gaming Industry News"
    description := "Latest verified gaming news with AI fact-checking"
    color := 0x00ff00
    timestamp := now
    fields :=
      [ { name := "📰 Today\x27s Gaming News"
          value := if news_content.length > 1000
                   then news_content.take 1000 ++ "..." else news_content
          inline := false },
        { name := "✅ Fact-Check Results"
          value := if fact_check_result.length > 500
                   then fact_check_result.take 500 ++ "..." else fact_check_result
          inline := false } ]
    footerText := "Powered by Perplexity AI | Gaming News Bot"
    footerIcon := "https://cdn.discordapp.com/embed/avatars/0.png" }

/-- A message sent to the destination channel: either plain text or an
embed payload. -/
inductive Msg where
  | text (s : String)
  | embedMsg (e : Embed)
deriving Repr, DecidableEq

/-- Which of the two Perplexity calls was made. -/
inductive ProviderCall where
  | newsCall
  | factCheckCall
deriving Repr, DecidableEq

/-- Abstract outcome of one pipeline run, naming the return path taken
by post_daily_news. -/
inductive Outcome where
  | Delivered
  | NoChannel
  | FetchFailed
  | DeliveryError
deriving Repr, DecidableEq

/-- Environment of one pipeline run: whether bot.get_channel resolves
the news channel, the two HTTP outcomes the provider would produce for
the news and fact-check calls, whether the embed send raises (the
exception source of the except branch: the plain-text notice sends are
taken as succeeding), and the current timestamp. -/
structure Env where
  channelFound : Bool
  newsResp : HttpOutcome
  factResp : HttpOutcome
  embedSendRaises : Bool
  now : Nat
deriving Repr, DecidableEq

/-- Observable result of one run of post_daily_news: the return path,
the messages delivered to the channel, the log lines, and the provider
calls made, in order. -/
structure RunResult where
  outcome : Outcome
  sent : List Msg
  logs : List String
  providerCalls : List ProviderCall
deriving Repr, DecidableEq

/-- GamingNewsBot.post_daily_news, lines 162 to 191: resolve the
channel (log and return when absent); fetch the news and, when the
result is falsy, send the fetch-failure notice and return; otherwise
fact-check, build the embed and send it; when that send raises, the
except clause logs and sends the generic error notice. -/
def post_daily_news (env : Env) : RunResult :=
  if !env.channelFound then
    { outcome := .NoChannel
      sent := []
      logs := ["News channel not found"]
      providerCalls := [] }
  else
    let fetched := fetch_gaming_news env.newsResp
    let logsA := "Fetching gaming news..." :: fetched.2
    if pyFalsy fetched.1 then
      { outcome := .FetchFailed
        sent := [.text "❌ Unable to fetch gaming news today. Please try again later."]
        logs := logsA
        providerCalls := [.newsCall] }
    else
      let checked := fact_check_content env.factResp
      let logsB := logsA ++ ("Fact-checking news content..." :: checked.2)
      let embed := create_news_embed (fetched.1.getD "") checked.1 env.now
      if env.embedSendRaises then
        { outcome := .DeliveryError
          sent := [.text "❌ An error occurred while fetching today\x27s gaming news."]
          logs := logsB ++ ["Error posting daily news: send failed"]
          providerCalls := [.newsCall, .factCheckCall] }
      else
        { outcome := .Delivered
          sent := [.embedMsg embed]
          logs := logsB ++ ["Daily gaming news posted successfully"]
          providerCalls := [.newsCall, .factCheckCall] }

/-- Observable result of the test command: the responses sent, how many
times the pipeline ran, and the provider calls made. -/
structure CommandResult where
  responses : List Msg
  pipelineRuns : Nat
  providerCalls : List ProviderCall
deriving Repr, DecidableEq

/-- test_news, lines 218 to 225: an administrator gets an
acknowledgment and a pipeline run; anyone else gets only the
permission-denied notice and nothing runs. -/
def test_news (isAdmin : Bool) (env : Env) : CommandResult :=
  if isAdmin then
    let r := post_daily_news env
    { responses := .text "🔄 Fetching test gaming news..." :: r.sent
      pipelineRuns := 1
      providerCalls := r.providerCalls }
  else
    { responses := [.text "❌ You need administrator permissions to use this command."]
      pipelineRuns := 0
      providerCalls := [] }

/-- Scheduler state visible to on_ready: whether the daily task loop is
running. The fire time is fixed configuration and never mutated. -/
structure ScheduleState where
  running : Bool
deriving Repr, DecidableEq

/-- on_ready, lines 196 to 205: starts the daily task only when it is
not already running. Second component records whether start() was
invoked by this call. -/
def on_ready (s : ScheduleState) : ScheduleState × Bool :=
  if !s.running then ({ running := true }, true) else (s, false)

/-- A wall-clock instant in UTC: day index plus hour and minute within
the day. -/
structure ClockTime where
  day : Nat
  hour : Nat
  minute : Nat
deriving Repr, DecidableEq

/-- Minute of day of an hour and minute pair. -/
def minuteOfDay (h m : Nat) : Nat := h * 60 + m

/-- Total minutes since day zero, for comparing instants. -/
def absMinutes (t : ClockTime) : Nat := t.day * 1440 + minuteOfDay t.hour t.minute

/-- Modelled from the spec: the next-fire computation of the daily task
loop lives in the discord.ext.tasks library, not under src/; the source
only declares the loop with the configured fire hour and minute (line
207) and reads next_iteration (line 237). Per the spec, the next fire is
the occurrence of the configured hour and minute later today when that
is still strictly ahead, and the occurrence tomorrow otherwise. -/
def next_fire (fireHour fireMinute : Nat) (now : ClockTime) : ClockTime :=
  if minuteOfDay now.hour now.minute < minuteOfDay fireHour fireMinute then
    { day := now.day, hour := fireHour, minute := fireMinute }
  else
    { day := now.day + 1, hour := fireHour, minute := fireMinute }

/-- The fact-check call succeeded: status 200 with extractable content. -/
def isFactSuccess : HttpOutcome → Bool
  | .resp status content => status == 200 && content.isSome
  | .exn _ => false

/-- Environment of the C1 counterexample run: channel found, news fetch
succeeds, fact-check raises a transport error. -/
def envFactTransportFail : Env :=
  { channelFound := true
    newsResp := .resp 200 (some "news story")
    factResp := .exn "timeout"
    embedSendRaises := false
    now := 0 }

/-- Environment of the C5 counterexample run: the channel does not
resolve. -/
def envNoChannel : Env :=
  { channelFound := false
    newsResp := .resp 200 (some "x")
    factResp := .resp 200 (some "y")
    embedSendRaises := false
    now := 0 }

/-- A 1001-character news text, for exercising truncation. -/
def longNews : String := String.mk (List.replicate 1001 'a')

/-- A 501-character fact-check text, for exercising truncation. -/
def longFact : String := String.mk (List.replicate 501 'b')

/-- Concrete environment with an unresolvable channel, for the C6
witness. -/
def envDown : Env :=
  { channelFound := false
    newsResp := .exn "down"
    factResp := .exn "down"
    embedSendRaises := false
    now := 5 }

/-- Concrete environment whose news call answers with status 500, for
the C4 witness. -/
def envFetch500 : Env :=
  { channelFound := true
    newsResp := .resp 500 (some "ignored")
    factResp := .resp 200 (some "ok")
    embedSendRaises := false
    now := 0 }

/-- Concrete environment whose news call answers 200 with an empty
string, for the C10 witness. -/
def envEmpty200 : Env :=
  { channelFound := true
    newsResp := .resp 200 (some "")
    factResp := .resp 200 (some "ok")
    embedSendRaises := false
    now := 0 }

/-- Concrete environment whose fact-check call answers with status 503,
for the C1 witness. -/
def envFact503 : Env :=
  { channelFound := true
    newsResp := .resp 200 (some "story")
    factResp := .resp 503 (some "unused")
    embedSendRaises := false
    now := 7 }

/-- Concrete environment in which everything succeeds, for the C5
witness. -/
def envAllOk : Env :=
  { channelFound := true
    newsResp := .resp 200 (some "story")
    factResp := .resp 200 (some "looks right")
    embedSendRaises := false
    now := 3 }

/-- C6: when the destination channel cannot be resolved, the condition
is logged, the run returns the NoChannel outcome, and no message is
sent and no provider call is made. -/
theorem no_channel_silent (env : Env) (h : env.channelFound = false) :
    (post_daily_news env).outcome = .NoChannel ∧
    (post_daily_news env).sent = [] ∧
    (post_daily_news env).providerCalls = [] ∧
    "News channel not found" ∈ (post_daily_news env).logs := by
  simp [post_daily_news, h]

/-- Witness for no_channel_silent at a concrete environment. -/
theorem no_channel_silent_witness :
    (post_daily_news envDown).outcome = .NoChannel ∧
    (post_daily_news envDown).sent = [] ∧
    (post_daily_news envDown).providerCalls = [] ∧
    "News channel not found" ∈ (post_daily_news envDown).logs :=
  no_channel_silent envDown rfl

/-- C7: the test command invoked without administrator permission sends
only the permission-denied notice, runs the pipeline zero times, and
makes zero provider calls. -/
theorem non_admin_denied (env : Env) :
    test_news false env =
      { responses := [.text "❌ You need administrator permissions to use this command."]
        pipelineRuns := 0
        providerCalls := [] } := rfl

/-- C8: the connection-ready handler is idempotent: invoked when the
daily task is already running it changes nothing and performs no start,
so across repeated invocations the task is started at most once. -/
theorem on_ready_idempotent (s : ScheduleState) :
    (s.running = true → on_ready s = (s, false)) ∧
    on_ready (on_ready s).1 = ((on_ready s).1, false) ∧
    (on_ready s).1.running = true := by
  obtain ⟨running⟩ := s
  cases running <;> simp [on_ready]

/-- Witness for on_ready_idempotent at the Armed state. -/
theorem on_ready_idempotent_witness :
    on_ready { running := true } = ({ running := true }, false) ∧
    on_ready (on_ready { running := true }).1 =
      ((on_ready { running := true }).1, false) ∧
    (on_ready { running := true }).1.running = true :=
  ⟨(on_ready_idempotent ⟨true⟩).1 rfl,
   (on_ready_idempotent ⟨true⟩).2.1,
   (on_ready_idempotent ⟨true⟩).2.2⟩

/-- C4: when the news fetch returns absence, exactly one failure notice
is sent, no report payload is sent, and the fact-check call is never
made. -/
theorem fetch_absence_single_notice (env : Env)
    (hch : env.channelFound = true)
    (hn : (fetch_gaming_news env.newsResp).1 = none) :
    (post_daily_news env).sent =
      [.text "❌ Unable to fetch gaming news today. Please try again later."] ∧
    (post_daily_news env).providerCalls = [.newsCall] ∧
    (post_daily_news env).outcome = .FetchFailed := by
  simp [post_daily_news, hch, hn, pyFalsy]

/-- Witness for fetch_absence_single_notice: a 500 status on the news
call. -/
theorem fetch_absence_single_notice_witness :
    (post_daily_news envFetch500).sent =
      [.text "❌ Unable to fetch gaming news today. Please try again later."] ∧
    (post_daily_news envFetch500).providerCalls = [.newsCall] ∧
    (post_daily_news envFetch500).outcome = .FetchFailed :=
  fetch_absence_single_notice envFetch500 rfl rfl

/-- C10: a successful news call that returns the empty string is
treated exactly like absence, because the pipeline tests Python
falsiness of the text: the fetch-failure notice is sent, no fact-check
call occurs, and no report is delivered. -/
theorem empty_news_treated_as_absence (env : Env)
    (hch : env.channelFound = true)
    (hn : (fetch_gaming_news env.newsResp).1 = some "") :
    (post_daily_news env).outcome = .FetchFailed ∧
    (post_daily_news env).sent =
      [.text "❌ Unable to fetch gaming news today. Please try again later."] ∧
    (post_daily_news env).providerCalls = [.newsCall] := by
  simp [post_daily_news, hch, hn, pyFalsy, show String.isEmpty "" = true from rfl]

/-- Witness for empty_news_treated_as_absence: a 200 status whose
content is the empty string. -/
theorem empty_news_treated_as_absence_witness :
    (post_daily_news envEmpty200).outcome = .FetchFailed ∧
    (post_daily_news envEmpty200).sent =
      [.text "❌ Unable to fetch gaming news today. Please try again later."] ∧
    (post_daily_news envEmpty200).providerCalls = [.newsCall] :=
  empty_news_treated_as_absence envEmpty200 rfl rfl

/-- C2: the first body field of the formatted embed is the news text
unchanged when its length is at most 1000, and its first 1000
characters followed by the ellipsis marker otherwise; the second body
field obeys the same rule for the fact-check text at threshold 500. -/
theorem truncation_rule (n f : String) (t : Nat) :
    (n.length ≤ 1000 → (create_news_embed n f t).field1 = n) ∧
    (1000 < n.length → (create_news_embed n f t).field1 = n.take 1000 ++ "...") ∧
    (f.length ≤ 500 → (create_news_embed n f t).field2 = f) ∧
    (500 < f.length → (create_news_embed n f t).field2 = f.take 500 ++ "...") := by
  refine ⟨fun h => ?_, fun h => ?_, fun h => ?_, fun h => ?_⟩ <;>
    simp only [create_news_embed, Embed.field1, Embed.field2]
  · rw [if_neg (by omega)]
  · rw [if_pos h]
  · rw [if_neg (by omega)]
  · rw [if_pos h]

/-- Witness for truncation_rule on a short and a 1001-character news
text and on a short and a 501-character fact-check text. -/
theorem truncation_rule_witness :
    (create_news_embed "abc" "xy" 0).field1 = "abc" ∧
    (create_news_embed longNews "xy" 0).field1 = longNews.take 1000 ++ "..." ∧
    (create_news_embed "abc" "xy" 0).field2 = "xy" ∧
    (create_news_embed "abc" longFact 0).field2 = longFact.take 500 ++ "..." :=
  ⟨(truncation_rule "abc" "xy" 0).1 (by decide),
   (truncation_rule longNews "xy" 0).2.1
     (by rw [longNews, ← String.length_data]
         rw [show (String.mk (List.replicate 1001 'a')).data = List.replicate 1001 'a' from rfl]
         rw [List.length_replicate]; omega),
   (truncation_rule "abc" "xy" 0).2.2.1 (by decide),
   (truncation_rule "abc" longFact 0).2.2.2
     (by rw [longFact, ← String.length_data]
         rw [show (String.mk (List.replicate 501 'b')).data = List.replicate 501 'b' from rfl]
         rw [List.length_replicate]; omega)⟩

/-- C9: whenever the daily task is armed, the next fire instant is
strictly in the future, lies at the configured hour and minute, falls
today when that time is still strictly ahead and tomorrow otherwise,
and in particular a 09:00 fire time evaluated at 14:00 yields 09:00 of
the following day. -/
theorem next_fire_strictly_future (fh fm : Nat) (now : ClockTime)
    (hfh : fh < 24) (hfm : fm < 60) (hh : now.hour < 24) (hm : now.minute < 60) :
    absMinutes now < absMinutes (next_fire fh fm now) ∧
    (next_fire fh fm now).hour = fh ∧
    (next_fire fh fm now).minute = fm ∧
    ((next_fire fh fm now).day = now.day ∨ (next_fire fh fm now).day = now.day + 1) ∧
    (minuteOfDay now.hour now.minute < minuteOfDay fh fm →
      (next_fire fh fm now).day = now.day) ∧
    (minuteOfDay fh fm ≤ minuteOfDay now.hour now.minute →
      (next_fire fh fm now).day = now.day + 1) ∧
    next_fire 9 0 { day := now.day, hour := 14, minute := 0 } =
      { day := now.day + 1, hour := 9, minute := 0 } := by
  unfold next_fire absMinutes minuteOfDay
  split_ifs with h₁ h₂ h₂ <;> (simp_all; try omega)

/-- Witness for next_fire_strictly_future at fire time 09:00 and
evaluation instant 14:00 of day 0. -/
theorem next_fire_strictly_future_witness :
    absMinutes { day := 0, hour := 14, minute := 0 } <
      absMinutes (next_fire 9 0 { day := 0, hour := 14, minute := 0 }) ∧
    (next_fire 9 0 { day := 0, hour := 14, minute := 0 }).hour = 9 ∧
    (next_fire 9 0 { day := 0, hour := 14, minute := 0 }).minute = 0 ∧
    ((next_fire 9 0 { day := 0, hour := 14, minute := 0 }).day = 0 ∨
      (next_fire 9 0 { day := 0, hour := 14, minute := 0 }).day = 0 + 1) ∧
    (minuteOfDay 14 0 < minuteOfDay 9 0 →
      (next_fire 9 0 { day := 0, hour := 14, minute := 0 }).day = 0) ∧
    (minuteOfDay 9 0 ≤ minuteOfDay 14 0 →
      (next_fire 9 0 { day := 0, hour := 14, minute := 0 }).day = 0 + 1) ∧
    next_fire 9 0 { day := 0, hour := 14, minute := 0 } =
      { day := 0 + 1, hour := 9, minute := 0 } :=
  next_fire_strictly_future 9 0 ⟨0, 14, 0⟩
    (by decide) (by decide) (by decide) (by decide)

/-- C1 counterexample: when the fact-check call fails with a transport
error the report is delivered, but its second body field carries the
fact-check-unavailable string, which differs from the
verification-unavailable string produced by a non-200 status, so no
single fixed fallback string describes the delivered field. -/
theorem fact_check_fallback_not_single :
    (post_daily_news envFactTransportFail).outcome = .Delivered ∧
    (post_daily_news envFactTransportFail).sent =
      [.embedMsg (create_news_embed "news story"
        "✅ Content appears factual (fact-check unavailable)" 0)] ∧
    (create_news_embed "news story"
        "✅ Content appears factual (fact-check unavailable)" 0).field2 ≠
      "✅ Content appears factual (verification unavailable)" := by
  refine ⟨by decide, by decide, by decide⟩

/-- C1 amended: when the channel resolves, the embed send succeeds, the
news fetch yields a nonempty text and the fact-check call fails in any
way, the report is still built and delivered with the fact-check text
equal to one of the two fixed fallback strings: verification-unavailable
on a non-200 status, fact-check-unavailable on a transport error or a
malformed 200 body; the fact-check failure never aborts the run. -/
theorem fact_check_failure_nonfatal (env : Env) (news : String)
    (hch : env.channelFound = true)
    (hsend : env.embedSendRaises = false)
    (hn : (fetch_gaming_news env.newsResp).1 = some news)
    (hne : news.isEmpty = false)
    (hf : isFactSuccess env.factResp = false) :
    (post_daily_news env).outcome = .Delivered ∧
    (post_daily_news env).sent =
      [.embedMsg (create_news_embed news (fact_check_content env.factResp).1 env.now)] ∧
    ((fact_check_content env.factResp).1 =
        "✅ Content appears factual (verification unavailable)" ∨
     (fact_check_content env.factResp).1 =
        "✅ Content appears factual (fact-check unavailable)") := by
  refine ⟨?_, ?_, ?_⟩
  · simp [post_daily_news, hch, hsend, hn, pyFalsy, hne]
  · simp [post_daily_news, hch, hsend, hn, pyFalsy, hne]
  · rcases hr : env.factResp with ⟨status, content⟩ | e
    · rw [hr] at hf
      simp only [isFactSuccess, Bool.and_eq_false_iff] at hf
      by_cases h200 : status = 200
      · rcases content with _ | c
        · right; simp [fact_check_content, h200]
        · exfalso
          rcases hf with hf | hf
          · rw [h200] at hf; simp at hf
          · simp at hf
      · left; simp [fact_check_content, h200]
    · right; simp [fact_check_content]

/-- Witness for fact_check_failure_nonfatal at a concrete run whose
fact-check call answers with status 503. -/
theorem fact_check_failure_nonfatal_witness :
    (post_daily_news envFact503).outcome = .Delivered ∧
    (post_daily_news envFact503).sent =
      [.embedMsg (create_news_embed "story" (fact_check_content envFact503.factResp).1
        envFact503.now)] ∧
    ((fact_check_content envFact503.factResp).1 =
        "✅ Content appears factual (verification unavailable)" ∨
     (fact_check_content envFact503.factResp).1 =
        "✅ Content appears factual (fact-check unavailable)") :=
  fact_check_failure_nonfatal envFact503 "story" rfl rfl rfl rfl rfl

/-- C3 counterexample: on a non-200 status the fact-check call logs
nothing, in particular not the status code, and returns a fixed
fallback string rather than absence. -/
theorem fact_check_non200_not_logged :
    fact_check_content (.resp 503 (some "body")) =
      ("✅ Content appears factual (verification unavailable)", []) := rfl

/-- C3 amended: the news call logs the status code and returns absence
on any non-200 status and logs the error and returns absence on any
transport failure or malformed 200 body; the fact-check call never
returns absence: on a non-200 status it returns the fixed
verification-unavailable fallback without logging, and on a transport
failure or malformed 200 body it logs the error and returns the fixed
fact-check-unavailable fallback; no exception propagates from either
call. -/
theorem provider_error_handling (s : Nat) (c : Option String) (e : String)
    (hs : s ≠ 200) :
    fetch_gaming_news (.resp s c) =
      (none, ["Perplexity API error: " ++ toString s]) ∧
    fetch_gaming_news (.exn e) = (none, ["Error fetching news: " ++ e]) ∧
    fetch_gaming_news (.resp 200 none) =
      (none, ["Error fetching news: malformed response body"]) ∧
    fact_check_content (.resp s c) =
      ("✅ Content appears factual (verification unavailable)", []) ∧
    fact_check_content (.exn e) =
      ("✅ Content appears factual (fact-check unavailable)",
       ["Error fact-checking: " ++ e]) ∧
    fact_check_content (.resp 200 none) =
      ("✅ Content appears factual (fact-check unavailable)",
       ["Error fact-checking: malformed response body"]) := by
  refine ⟨?_, rfl, rfl, ?_, rfl, rfl⟩ <;> simp [fetch_gaming_news, fact_check_content, hs]

/-- Witness for provider_error_handling at status 503 with a dummy body
and the error message timeout. -/
theorem provider_error_handling_witness :
    fetch_gaming_news (.resp 503 (some "irrelevant")) =
      (none, ["Perplexity API error: " ++ toString 503]) ∧
    fetch_gaming_news (.exn "timeout") =
      (none, ["Error fetching news: " ++ "timeout"]) ∧
    fetch_gaming_news (.resp 200 none) =
      (none, ["Error fetching news: malformed response body"]) ∧
    fact_check_content (.resp 503 (some "irrelevant")) =
      ("✅ Content appears factual (verification unavailable)", []) ∧
    fact_check_content (.exn "timeout") =
      ("✅ Content appears factual (fact-check unavailable)",
       ["Error fact-checking: " ++ "timeout"]) ∧
    fact_check_content (.resp 200 none) =
      ("✅ Content appears factual (fact-check unavailable)",
       ["Error fact-checking: malformed response body"]) :=
  provider_error_handling 503 (some "irrelevant") "timeout" (by decide)

/-- C5 counterexample: a run whose channel does not resolve sends zero
messages, not exactly one. -/
theorem no_channel_zero_messages :
    (post_daily_news envNoChannel).sent = [] ∧
    (post_daily_news envNoChannel).sent.length ≠ 1 := by
  refine ⟨rfl, by decide⟩

/-- C5 amended: every pipeline invocation sends at most one outbound
message, and every invocation whose channel resolves sends exactly one:
the report, the fetch-failure notice, or the generic error notice. -/
theorem at_most_one_message (env : Env) :
    (post_daily_news env).sent.length ≤ 1 ∧
    (env.channelFound = true → (post_daily_news env).sent.length = 1) := by
  obtain ⟨ch, nr, fr, esr, now⟩ := env
  cases ch <;> (simp [post_daily_news]; try (split_ifs <;> simp))

/-- Witness for at_most_one_message at a fully successful concrete
run. -/
theorem at_most_one_message_witness :
    (post_daily_news envAllOk).sent.length ≤ 1 ∧
    (post_daily_news envAllOk).sent.length = 1 :=
  ⟨(at_most_one_message envAllOk).1, (at_most_one_message envAllOk).2 rfl⟩

end GamingNewsBot
